import Mathlib

/-!
Verification of the KCI BNI City station mock-analytics backend (src/backend.py).

The five category generators are embedded shallowly: every call to the
process-wide random stream is replaced by an explicit draw recorded in a
"draws" structure, and a `Valid` predicate states the exact ranges the
Python `random.randint` / `random.uniform` calls can produce.  Python's
`int(...)` truncation is `truncInt`, Python's `round(x, n)` (banker's
rounding) is `roundQ n`, and `generate_daily_data` is translated with the
uniform draw `u ∈ [-variance, variance]` passed explicitly.  Floating-point
arithmetic is idealised over ℚ.
-/

namespace KCI

/-- Python `int(q)` for a rational `q`: truncation toward zero. -/
def truncInt (q : ℚ) : ℤ := if 0 ≤ q then ⌊q⌋ else ⌈q⌉

/-- Python `round(x, n)` on an exact rational: round to `n` decimal places,
ties going to the even integer (banker's rounding). -/
def roundQ (n : ℕ) (q : ℚ) : ℚ :=
  let s : ℚ := (10 : ℚ) ^ n
  let r : ℚ := q * s
  let f : ℤ := ⌊r⌋
  let frac : ℚ := r - (f : ℚ)
  let k : ℤ :=
    if frac < 1/2 then f
    else if 1/2 < frac then f + 1
    else if f % 2 = 0 then f else f + 1
  (k : ℚ) / s

/-- `generate_daily_data(base, variance)` from backend.py:
`int(base * (1 + random.uniform(-variance, variance)))`, with the uniform
draw `u` made explicit. -/
def generate_daily_data (base : ℤ) (u : ℚ) : ℤ :=
  truncInt ((base : ℚ) * (1 + u))

/-- The `date or get_date()` idiom shared by every endpoint: Python `or`
falls through to the current date both when `date` is `None` and when it is
the (falsy) empty string.  `now` stands for `get_date()`. -/
def target_date (date : Option String) (now : String) : String :=
  match date with
  | none => now
  | some s => if s = "" then now else s

/-- Python `max(xs, key=k)` on a non-empty list: the first element whose key
is maximal (later elements replace the champion only when strictly greater). -/
def pyMax {α β : Type} [LinearOrder β] (key : α → β) (dflt : α) : List α → α
  | [] => dflt
  | x :: xs => xs.foldl (fun acc y => if key acc < key y then y else acc) x

/-- Character-list matching helper: does the needle occur at the head? -/
def matchesAt : List Char → List Char → Bool
  | [], _ => true
  | _ :: _, [] => false
  | a :: as, b :: bs => a == b && matchesAt as bs

/-- Does the needle occur anywhere in the haystack? -/
def hasSub (needle : List Char) : List Char → Bool
  | [] => matchesAt needle []
  | b :: bs => matchesAt needle (b :: bs) || hasSub needle bs

/-- Python `needle in hay` on strings. -/
def strIn (needle hay : String) : Bool := hasSub needle.toList hay.toList

/-- Fuel-driven replacement of every non-overlapping occurrence of `needle`
(leftmost first), the semantics of Python `str.replace` for a non-empty
needle. -/
def replaceFuel (needle repl : List Char) : ℕ → List Char → List Char
  | 0, hay => hay
  | _ + 1, [] => []
  | fuel + 1, c :: cs =>
    if needle ≠ [] ∧ matchesAt needle (c :: cs) then
      repl ++ replaceFuel needle repl fuel (List.drop (needle.length - 1) cs)
    else
      c :: replaceFuel needle repl fuel cs

/-- Python `hay.replace(needle, repl)` for a non-empty needle. -/
def pyReplace (hay needle repl : String) : String :=
  ⟨replaceFuel needle.data repl.data hay.data.length hay.data⟩

/-- Python a-list split: `splitOnChar c l` is `''.join(l).split(c)` as
character lists. -/
def splitOnChar (c : Char) : List Char → List (List Char)
  | [] => [[]]
  | x :: xs =>
    if x == c then [] :: splitOnChar c xs
    else
      match splitOnChar c xs with
      | [] => [[x]]
      | y :: ys => (x :: y) :: ys

/-- Python `int(s)` on a string of decimal digits. -/
def natOfChars (l : List Char) : ℕ :=
  l.foldl (fun acc c => acc * 10 + (c.toNat - 48)) 0

/-! ### Operational Efficiency (get_operational_efficiency) -/

structure TrafficHourData where
  hour : ℕ
  count : ℤ
  period : String
deriving DecidableEq

structure GateUtilizationData where
  gate_id : String
  zone : String
  count : ℤ
  utilization_rate : ℚ
deriving DecidableEq

structure TrafficZoneData where
  zone : String
  count : ℤ
  percentage : ℚ
deriving DecidableEq

structure DirectionBalanceData where
  zone : String
  direction : String
  count : ℤ
  percentage : ℚ
deriving DecidableEq

structure OpsSummary where
  morning_peak_transactions : ℤ
  morning_peak_percentage : ℚ
  evening_peak_transactions : ℤ
  evening_peak_percentage : ℚ
  avg_gate_utilization_rate : ℚ
  busiest_gate : String
  busiest_zone : String
deriving DecidableEq

structure OperationalEfficiencyResponse where
  date : String
  total_transactions : ℤ
  traffic_per_hour : List TrafficHourData
  gate_utilization : List GateUtilizationData
  traffic_by_zone : List TrafficZoneData
  balance_direction : List DirectionBalanceData
  summary : OpsSummary
deriving DecidableEq

instance : Inhabited TrafficHourData := ⟨{ hour := 0, count := 0, period := "" }⟩

instance : Inhabited GateUtilizationData :=
  ⟨{ gate_id := "", zone := "", count := 0, utilization_rate := 0 }⟩

instance : Inhabited TrafficZoneData := ⟨{ zone := "", count := 0, percentage := 0 }⟩

instance : Inhabited DirectionBalanceData :=
  ⟨{ zone := "", direction := "", count := 0, percentage := 0 }⟩

/-- All random draws consumed by one execution of
`get_operational_efficiency`.  Hour draws are indexed `0..16` for hours
`6+i`; gate draws `0..3` are the North gates, `4..7` the West gates (the
order the nested loop visits them); `balance_split` draws `0..3` are the
four `random.uniform(0.45, 0.55)` calls in iteration order
(North-IN, North-OUT, West-IN, West-OUT). -/
structure OpsDraws where
  total_transactions : ℤ
  hour_base : ℕ → ℤ
  hour_jitter : ℕ → ℚ
  gate_base : ℕ → ℤ
  gate_jitter : ℕ → ℚ
  balance_split : ℕ → ℚ

/-- Peak-period label for an hour, as in the `traffic_per_hour` loop. -/
def trafficPeriod (hour : ℕ) : String :=
  if 7 ≤ hour ∧ hour ≤ 9 then "Morning Peak"
  else if 16 ≤ hour ∧ hour ≤ 19 then "Evening Peak"
  else ""

def mkTrafficHour (d : OpsDraws) (i : ℕ) : TrafficHourData :=
  { hour := 6 + i
    count := generate_daily_data (d.hour_base i) (d.hour_jitter i)
    period := trafficPeriod (6 + i) }

/-- The 17 hourly records for `range(6, 23)`. -/
def traffic_per_hour (d : OpsDraws) : List TrafficHourData :=
  (List.range 17).map (fun i => mkTrafficHour d i)

def gateCnt (d : OpsDraws) (idx : ℕ) : ℤ :=
  generate_daily_data (d.gate_base idx) (d.gate_jitter idx)

def mkGate (d : OpsDraws) (zone : String) (idx num : ℕ) : GateUtilizationData :=
  { gate_id := "TAP-" ++ zone.toUpper ++ "-00" ++ toString num
    zone := zone
    count := gateCnt d idx
    utilization_rate :=
      roundQ 2 ((gateCnt d idx : ℚ) / (d.total_transactions : ℚ) * 100) }

/-- The 8 gate records, in the order the nested `for zone / for i` loop
produces them. -/
def gate_utilization (d : OpsDraws) : List GateUtilizationData :=
  [mkGate d "North" 0 1, mkGate d "North" 1 2, mkGate d "North" 2 3, mkGate d "North" 3 4,
   mkGate d "West" 4 1, mkGate d "West" 5 2, mkGate d "West" 6 3, mkGate d "West" 7 4]

def north_count (d : OpsDraws) : ℤ :=
  (((gate_utilization d).filter (fun g => g.zone == "North")).map (fun g => g.count)).sum

def west_count (d : OpsDraws) : ℤ :=
  (((gate_utilization d).filter (fun g => g.zone == "West")).map (fun g => g.count)).sum

def traffic_by_zone (d : OpsDraws) : List TrafficZoneData :=
  [{ zone := "TAP-NORTH"
     count := north_count d
     percentage := roundQ 1 ((north_count d : ℚ) / (d.total_transactions : ℚ) * 100) },
   { zone := "TAP-WEST"
     count := west_count d
     percentage := roundQ 1 ((west_count d : ℚ) / (d.total_transactions : ℚ) * 100) }]

/-- One iteration of the inner balance loop: `count = int(zone_count * u)`
with a fresh `u = random.uniform(0.45, 0.55)` for each direction. -/
def mkBalance (z : TrafficZoneData) (dir : String) (u : ℚ) : DirectionBalanceData :=
  let c : ℤ := truncInt ((z.count : ℚ) * u)
  { zone := pyReplace z.zone "TAP-" ""
    direction := dir
    count := c
    percentage := roundQ 1 ((c : ℚ) / (z.count : ℚ) * 100) }

def balance_direction (d : OpsDraws) : List DirectionBalanceData :=
  [mkBalance ((traffic_by_zone d).getD 0 default) "IN" (d.balance_split 0),
   mkBalance ((traffic_by_zone d).getD 0 default) "OUT" (d.balance_split 1),
   mkBalance ((traffic_by_zone d).getD 1 default) "IN" (d.balance_split 2),
   mkBalance ((traffic_by_zone d).getD 1 default) "OUT" (d.balance_split 3)]

def morning_peak (d : OpsDraws) : ℤ :=
  (((traffic_per_hour d).filter (fun t => decide (7 ≤ t.hour) && decide (t.hour ≤ 9))).map
    (fun t => t.count)).sum

def evening_peak (d : OpsDraws) : ℤ :=
  (((traffic_per_hour d).filter (fun t => decide (16 ≤ t.hour) && decide (t.hour ≤ 19))).map
    (fun t => t.count)).sum

def avg_gate_util (d : OpsDraws) : ℚ :=
  ((gate_utilization d).map (fun g => g.utilization_rate)).sum /
    ((gate_utilization d).length : ℚ)

def ops_summary (d : OpsDraws) : OpsSummary :=
  { morning_peak_transactions := morning_peak d
    morning_peak_percentage := roundQ 1 ((morning_peak d : ℚ) / (d.total_transactions : ℚ) * 100)
    evening_peak_transactions := evening_peak d
    evening_peak_percentage := roundQ 1 ((evening_peak d : ℚ) / (d.total_transactions : ℚ) * 100)
    avg_gate_utilization_rate := roundQ 2 (avg_gate_util d)
    busiest_gate := (pyMax (fun g => g.count) default (gate_utilization d)).gate_id
    busiest_zone := (pyMax (fun z => z.count) default (traffic_by_zone d)).zone }

def get_operational_efficiency (date : Option String) (now : String)
    (d : OpsDraws) : OperationalEfficiencyResponse :=
  { date := target_date date now
    total_transactions := d.total_transactions
    traffic_per_hour := traffic_per_hour d
    gate_utilization := gate_utilization d
    traffic_by_zone := traffic_by_zone d
    balance_direction := balance_direction d
    summary := ops_summary d }

/-- Ranges of the random draws in `get_operational_efficiency`:
`randint(4000, 6000)` for the total; hourly bases from `randint(400, 600)`
in the peak windows and `randint(50, 200)` otherwise with jitter variance
`0.15`; gate bases from `randint(450, 650)` (North) / `randint(400, 600)`
(West) with variance `0.2`; balance splits from `uniform(0.45, 0.55)`. -/
def OpsDraws.Valid (d : OpsDraws) : Prop :=
  4000 ≤ d.total_transactions ∧ d.total_transactions ≤ 6000 ∧
  (∀ i, i < 17 →
    (if 7 ≤ 6 + i ∧ 6 + i ≤ 9 then (400 : ℤ) ≤ d.hour_base i ∧ d.hour_base i ≤ 600
     else if 16 ≤ 6 + i ∧ 6 + i ≤ 19 then (400 : ℤ) ≤ d.hour_base i ∧ d.hour_base i ≤ 600
     else (50 : ℤ) ≤ d.hour_base i ∧ d.hour_base i ≤ 200) ∧
    -(0.15 : ℚ) ≤ d.hour_jitter i ∧ d.hour_jitter i ≤ 0.15) ∧
  (∀ i, i < 8 →
    (if i < 4 then (450 : ℤ) ≤ d.gate_base i ∧ d.gate_base i ≤ 650
     else (400 : ℤ) ≤ d.gate_base i ∧ d.gate_base i ≤ 600) ∧
    -(0.2 : ℚ) ≤ d.gate_jitter i ∧ d.gate_jitter i ≤ 0.2) ∧
  (∀ i, i < 4 → (0.45 : ℚ) ≤ d.balance_split i ∧ d.balance_split i ≤ 0.55)

/-! ### Demographics (get_demografi) -/

structure AgeDistributionData where
  age_range : String
  count : ℤ
  percentage : ℚ
deriving DecidableEq

structure OccupationDistributionData where
  occupation : String
  count : ℤ
  percentage : ℚ
deriving DecidableEq

structure GenderDistributionData where
  gender : String
  count : ℤ
  percentage : ℚ
deriving DecidableEq

structure OriginStationData where
  station : String
  count : ℤ
  percentage : ℚ
deriving DecidableEq

structure DemogSummary where
  average_age : ℚ
  productive_age_passengers : ℤ
  productive_age_percentage : ℚ
  worker_passengers : ℤ
  worker_percentage : ℚ
  dominant_origin_station : String
deriving DecidableEq

structure DemografiResponse where
  date : String
  total_passengers : ℤ
  age_distribution : List AgeDistributionData
  occupation_distribution : List OccupationDistributionData
  gender_distribution : List GenderDistributionData
  origin_station_distribution : List OriginStationData
  summary : DemogSummary
deriving DecidableEq

instance : Inhabited AgeDistributionData := ⟨{ age_range := "", count := 0, percentage := 0 }⟩

instance : Inhabited OccupationDistributionData :=
  ⟨{ occupation := "", count := 0, percentage := 0 }⟩

instance : Inhabited GenderDistributionData := ⟨{ gender := "", count := 0, percentage := 0 }⟩

instance : Inhabited OriginStationData := ⟨{ station := "", count := 0, percentage := 0 }⟩

/-- All random draws of one `get_demografi` execution: the total, the five
age-bucket bases and jitters (variance 0.1), the five occupation bases and
jitters (0.15), the male-count jitter (0.05), and the nine station bases
and jitters (0.2). -/
structure DemogDraws where
  total_passengers : ℤ
  age_base : ℕ → ℤ
  age_jitter : ℕ → ℚ
  occ_base : ℕ → ℤ
  occ_jitter : ℕ → ℚ
  pria_jitter : ℚ
  station_base : ℕ → ℤ
  station_jitter : ℕ → ℚ

def age_labels : List String := ["18-24", "25-34", "35-44", "45-54", "55+"]

def occupation_labels : List String :=
  ["Karyawan Swasta", "PNS/BUMN", "Pelajar/Mahasiswa", "Wiraswasta", "Wisatawan"]

def station_labels : List String :=
  ["Bekasi", "Cikarang", "Depok", "Bogor", "Tangerang", "Sudirman", "Karet",
   "Pasar Minggu", "Tanah Abang"]

def mkAge (d : DemogDraws) (i : ℕ) : AgeDistributionData :=
  let count : ℤ := generate_daily_data (d.age_base i) (d.age_jitter i)
  { age_range := age_labels.getD i ""
    count := count
    percentage := roundQ 1 ((count : ℚ) / (d.total_passengers : ℚ) * 100) }

def age_distribution (d : DemogDraws) : List AgeDistributionData :=
  [mkAge d 0, mkAge d 1, mkAge d 2, mkAge d 3, mkAge d 4]

def mkOccupation (d : DemogDraws) (i : ℕ) : OccupationDistributionData :=
  let count : ℤ := generate_daily_data (d.occ_base i) (d.occ_jitter i)
  { occupation := occupation_labels.getD i ""
    count := count
    percentage := roundQ 1 ((count : ℚ) / (d.total_passengers : ℚ) * 100) }

def occupation_distribution (d : DemogDraws) : List OccupationDistributionData :=
  [mkOccupation d 0, mkOccupation d 1, mkOccupation d 2, mkOccupation d 3, mkOccupation d 4]

/-- `pria_count = generate_daily_data(int(total_passengers * 0.52), 0.05)`. -/
def pria_count (d : DemogDraws) : ℤ :=
  generate_daily_data (truncInt ((d.total_passengers : ℚ) * 0.52)) d.pria_jitter

def gender_distribution (d : DemogDraws) : List GenderDistributionData :=
  [{ gender := "Pria"
     count := pria_count d
     percentage := roundQ 1 ((pria_count d : ℚ) / (d.total_passengers : ℚ) * 100) },
   { gender := "Wanita"
     count := d.total_passengers - pria_count d
     percentage :=
       roundQ 1 (((d.total_passengers - pria_count d : ℤ) : ℚ) / (d.total_passengers : ℚ) * 100) }]

def mkStation (d : DemogDraws) (i : ℕ) : OriginStationData :=
  let count : ℤ := generate_daily_data (d.station_base i) (d.station_jitter i)
  { station := station_labels.getD i ""
    count := count
    percentage := roundQ 1 ((count : ℚ) / (d.total_passengers : ℚ) * 100) }

def origin_station_distribution (d : DemogDraws) : List OriginStationData :=
  [mkStation d 0, mkStation d 1, mkStation d 2, mkStation d 3, mkStation d 4,
   mkStation d 5, mkStation d 6, mkStation d 7, mkStation d 8]

/-- Midpoint of an age-range label, exactly as the summary computes it:
`(int(a) + int(b)) / 2` when the label contains a dash
(`int(s.split('-')[0])`, `int(s.split('-')[1])`), else `60`. -/
def age_midpoint (s : String) : ℚ :=
  if s.data.contains '-' then
    let parts := splitOnChar '-' s.data
    (((natOfChars (parts.getD 0 []) : ℕ) : ℚ) + ((natOfChars (parts.getD 1 []) : ℕ) : ℚ)) / 2
  else 60

/-- The summary's `avg_age`: the unweighted mean of the five label midpoints;
it reads only the fixed labels of `age_ranges`, never the counts. -/
def avg_age : ℚ := (age_labels.map age_midpoint).sum / (age_labels.length : ℚ)

def productive_age (d : DemogDraws) : ℤ :=
  (((age_distribution d).filter
      (fun a => a.age_range == "25-34" || a.age_range == "35-44")).map
    (fun a => a.count)).sum

def workers (d : DemogDraws) : ℤ :=
  (((occupation_distribution d).filter
      (fun o => o.occupation == "Karyawan Swasta" || o.occupation == "PNS/BUMN")).map
    (fun o => o.count)).sum

def demog_summary (d : DemogDraws) : DemogSummary :=
  { average_age := roundQ 1 avg_age
    productive_age_passengers := productive_age d
    productive_age_percentage :=
      roundQ 1 ((productive_age d : ℚ) / (d.total_passengers : ℚ) * 100)
    worker_passengers := workers d
    worker_percentage := roundQ 1 ((workers d : ℚ) / (d.total_passengers : ℚ) * 100)
    dominant_origin_station :=
      (pyMax (fun s => s.count) default (origin_station_distribution d)).station }

def get_demografi (date : Option String) (now : String) (d : DemogDraws) :
    DemografiResponse :=
  { date := target_date date now
    total_passengers := d.total_passengers
    age_distribution := age_distribution d
    occupation_distribution := occupation_distribution d
    gender_distribution := gender_distribution d
    origin_station_distribution := origin_station_distribution d
    summary := demog_summary d }

def age_base_lo : ℕ → ℤ
  | 0 => 300
  | 1 => 800
  | 2 => 1000
  | 3 => 700
  | _ => 200

def age_base_hi : ℕ → ℤ
  | 0 => 500
  | 1 => 1200
  | 2 => 1500
  | 3 => 1000
  | _ => 400

def occ_base_lo : ℕ → ℤ
  | 0 => 1500
  | 1 => 600
  | 2 => 400
  | 3 => 500
  | _ => 100

def occ_base_hi : ℕ → ℤ
  | 0 => 2200
  | 1 => 900
  | 2 => 700
  | 3 => 800
  | _ => 300

def station_base_lo : ℕ → ℤ
  | 0 => 700
  | 1 => 400
  | 2 => 500
  | 3 => 400
  | 4 => 300
  | 5 => 300
  | 6 => 300
  | 7 => 100
  | _ => 200

def station_base_hi : ℕ → ℤ
  | 0 => 1000
  | 1 => 600
  | 2 => 700
  | 3 => 600
  | 4 => 500
  | 5 => 500
  | 6 => 500
  | 7 => 300
  | _ => 400

/-- Ranges of the random draws in `get_demografi`. -/
def DemogDraws.Valid (d : DemogDraws) : Prop :=
  3500 ≤ d.total_passengers ∧ d.total_passengers ≤ 5000 ∧
  (∀ i, i < 5 → age_base_lo i ≤ d.age_base i ∧ d.age_base i ≤ age_base_hi i ∧
    -(0.1 : ℚ) ≤ d.age_jitter i ∧ d.age_jitter i ≤ 0.1) ∧
  (∀ i, i < 5 → occ_base_lo i ≤ d.occ_base i ∧ d.occ_base i ≤ occ_base_hi i ∧
    -(0.15 : ℚ) ≤ d.occ_jitter i ∧ d.occ_jitter i ≤ 0.15) ∧
  (-(0.05 : ℚ) ≤ d.pria_jitter ∧ d.pria_jitter ≤ 0.05) ∧
  (∀ i, i < 9 →
    station_base_lo i ≤ d.station_base i ∧ d.station_base i ≤ station_base_hi i ∧
    -(0.2 : ℚ) ≤ d.station_jitter i ∧ d.station_jitter i ≤ 0.2)

/-! ### Trip Segmentation (get_segmentasi_perjalanan) -/

structure OriginDistributionData where
  station : String
  count : ℤ
  percentage : ℚ
deriving DecidableEq

structure DirectionDistributionData where
  direction : String
  count : ℤ
  percentage : ℚ
deriving DecidableEq

structure TimeTravelData where
  time_segment : String
  count : ℤ
  percentage : ℚ
deriving DecidableEq

structure TripSummary where
  top_origin_station : String
  top_origin_count : ℤ
  top_origin_percentage : ℚ
  dominant_direction : String
  dominant_time_segment : String
  dominant_time_percentage : ℚ
deriving DecidableEq

structure SegmentasiPerjalananResponse where
  date : String
  total_transactions : ℤ
  origin_distribution : List OriginDistributionData
  direction_distribution : List DirectionDistributionData
  time_travel_distribution : List TimeTravelData
  summary : TripSummary
deriving DecidableEq

instance : Inhabited OriginDistributionData := ⟨{ station := "", count := 0, percentage := 0 }⟩

instance : Inhabited DirectionDistributionData :=
  ⟨{ direction := "", count := 0, percentage := 0 }⟩

instance : Inhabited TimeTravelData := ⟨{ time_segment := "", count := 0, percentage := 0 }⟩

/-- All random draws of one `get_segmentasi_perjalanan` execution: the total,
nine station bases and jitters (0.2), the IN-count jitter (0.03), and the
three time-segment bases with jitters (0.15, 0.15, 0.2). -/
structure TripDraws where
  total_transactions : ℤ
  station_base : ℕ → ℤ
  station_jitter : ℕ → ℚ
  in_jitter : ℚ
  time_base : ℕ → ℤ
  time_jitter : ℕ → ℚ

def mkOrigin (d : TripDraws) (i : ℕ) : OriginDistributionData :=
  let count : ℤ := generate_daily_data (d.station_base i) (d.station_jitter i)
  { station := station_labels.getD i ""
    count := count
    percentage := roundQ 1 ((count : ℚ) / (d.total_transactions : ℚ) * 100) }

def origin_distribution (d : TripDraws) : List OriginDistributionData :=
  [mkOrigin d 0, mkOrigin d 1, mkOrigin d 2, mkOrigin d 3, mkOrigin d 4,
   mkOrigin d 5, mkOrigin d 6, mkOrigin d 7, mkOrigin d 8]

/-- `in_count = generate_daily_data(int(total_transactions * 0.51), 0.03)`. -/
def in_count (d : TripDraws) : ℤ :=
  generate_daily_data (truncInt ((d.total_transactions : ℚ) * 0.51)) d.in_jitter

def direction_distribution (d : TripDraws) : List DirectionDistributionData :=
  [{ direction := "IN"
     count := in_count d
     percentage := roundQ 1 ((in_count d : ℚ) / (d.total_transactions : ℚ) * 100) },
   { direction := "OUT"
     count := d.total_transactions - in_count d
     percentage :=
       roundQ 1 (((d.total_transactions - in_count d : ℤ) : ℚ) /
         (d.total_transactions : ℚ) * 100) }]

def time_labels : List String := ["Morning (07:00-09:00)", "Evening (16:00-19:00)", "Off-Peak"]

def mkTimeTravel (d : TripDraws) (i : ℕ) : TimeTravelData :=
  let count : ℤ := generate_daily_data (d.time_base i) (d.time_jitter i)
  { time_segment := time_labels.getD i ""
    count := count
    percentage := roundQ 1 ((count : ℚ) / (d.total_transactions : ℚ) * 100) }

def time_travel_distribution (d : TripDraws) : List TimeTravelData :=
  [mkTimeTravel d 0, mkTimeTravel d 1, mkTimeTravel d 2]

def trip_summary (d : TripDraws) : TripSummary :=
  let top := pyMax (fun s => s.count) default (origin_distribution d)
  let dir := pyMax (fun x => x.count) default (direction_distribution d)
  let tt := pyMax (fun t => t.count) default (time_travel_distribution d)
  { top_origin_station := top.station
    top_origin_count := top.count
    top_origin_percentage := top.percentage
    dominant_direction := dir.direction
    dominant_time_segment := tt.time_segment
    dominant_time_percentage := tt.percentage }

def get_segmentasi_perjalanan (date : Option String) (now : String) (d : TripDraws) :
    SegmentasiPerjalananResponse :=
  { date := target_date date now
    total_transactions := d.total_transactions
    origin_distribution := origin_distribution d
    direction_distribution := direction_distribution d
    time_travel_distribution := time_travel_distribution d
    summary := trip_summary d }

def time_base_lo : ℕ → ℤ
  | 2 => 600
  | _ => 1200

def time_base_hi : ℕ → ℤ
  | 2 => 1000
  | _ => 1800

def time_variance : ℕ → ℚ
  | 2 => 0.2
  | _ => 0.15

/-- Ranges of the random draws in `get_segmentasi_perjalanan`. -/
def TripDraws.Valid (d : TripDraws) : Prop :=
  4000 ≤ d.total_transactions ∧ d.total_transactions ≤ 6000 ∧
  (∀ i, i < 9 →
    station_base_lo i ≤ d.station_base i ∧ d.station_base i ≤ station_base_hi i ∧
    -(0.2 : ℚ) ≤ d.station_jitter i ∧ d.station_jitter i ≤ 0.2) ∧
  (-(0.03 : ℚ) ≤ d.in_jitter ∧ d.in_jitter ≤ 0.03) ∧
  (∀ i, i < 3 →
    time_base_lo i ≤ d.time_base i ∧ d.time_base i ≤ time_base_hi i ∧
    -(time_variance i) ≤ d.time_jitter i ∧ d.time_jitter i ≤ time_variance i)

/-! ### Loyalty Segmentation (get_segmentasi_loyaltas) -/

structure LoyaltySegmentData where
  segment : String
  count : ℤ
  percentage : ℚ
  min_freq : ℤ
  max_freq : ℤ
deriving DecidableEq

structure LoyaltyByOccupationData where
  occupation : String
  avg_frequency : ℚ
  count : ℤ
deriving DecidableEq

structure LoySummary where
  high_loyalty_count : ℤ
  high_loyalty_percentage : ℚ
  loyal_workers_count : ℤ
  loyal_workers_percentage : ℚ
  most_loyal_occupation : String
  most_loyal_occupation_avg_freq : ℚ
deriving DecidableEq

structure SegmentasiLoyaltasResponse where
  date : String
  total_passengers : ℤ
  loyalty_segments : List LoyaltySegmentData
  loyalty_by_occupation : List LoyaltyByOccupationData
  summary : LoySummary
deriving DecidableEq

instance : Inhabited LoyaltySegmentData :=
  ⟨{ segment := "", count := 0, percentage := 0, min_freq := 0, max_freq := 0 }⟩

instance : Inhabited LoyaltyByOccupationData :=
  ⟨{ occupation := "", avg_frequency := 0, count := 0 }⟩

/-- All random draws of one `get_segmentasi_loyaltas` execution: the total,
the three tier bases with jitters (0.15, 0.15, 0.2), and per occupation the
`uniform` frequency draw, the ±0.5 frequency perturbation, and the count
base with its 0.1 jitter. -/
structure LoyDraws where
  total_passengers : ℤ
  high_base : ℤ
  medium_base : ℤ
  low_base : ℤ
  high_jitter : ℚ
  medium_jitter : ℚ
  low_jitter : ℚ
  occ_freq : ℕ → ℚ
  occ_freq_jitter : ℕ → ℚ
  occ_base : ℕ → ℤ
  occ_count_jitter : ℕ → ℚ

def high_count (d : LoyDraws) : ℤ := generate_daily_data d.high_base d.high_jitter

def medium_count (d : LoyDraws) : ℤ := generate_daily_data d.medium_base d.medium_jitter

def low_count (d : LoyDraws) : ℤ := generate_daily_data d.low_base d.low_jitter

/-- `total_loyalty = sum(ls.count for ls in loyalty_segments)`: the local
sub-total the tier percentages are computed against. -/
def total_loyalty (d : LoyDraws) : ℤ := high_count d + medium_count d + low_count d

def loyalty_segments (d : LoyDraws) : List LoyaltySegmentData :=
  [{ segment := "High Loyalty (≥12x)"
     count := high_count d
     percentage := roundQ 1 ((high_count d : ℚ) / (total_loyalty d : ℚ) * 100)
     min_freq := 12
     max_freq := 14 },
   { segment := "Medium Loyalty (7-11x)"
     count := medium_count d
     percentage := roundQ 1 ((medium_count d : ℚ) / (total_loyalty d : ℚ) * 100)
     min_freq := 7
     max_freq := 11 },
   { segment := "Low Loyalty (<7x)"
     count := low_count d
     percentage := roundQ 1 ((low_count d : ℚ) / (total_loyalty d : ℚ) * 100)
     min_freq := 1
     max_freq := 6 }]

def mkLoyOcc (d : LoyDraws) (i : ℕ) : LoyaltyByOccupationData :=
  { occupation := occupation_labels.getD i ""
    avg_frequency := roundQ 1 (roundQ 1 (d.occ_freq i) + d.occ_freq_jitter i)
    count := generate_daily_data (d.occ_base i) (d.occ_count_jitter i) }

def loyalty_by_occupation (d : LoyDraws) : List LoyaltyByOccupationData :=
  [mkLoyOcc d 0, mkLoyOcc d 1, mkLoyOcc d 2, mkLoyOcc d 3, mkLoyOcc d 4]

def loy_summary (d : LoyDraws) : LoySummary :=
  let high := ((loyalty_segments d).filter (fun ls => strIn "High" ls.segment)).getD 0 default
  let loyal_workers :=
    (((loyalty_by_occupation d).filter
        (fun lo => lo.occupation == "Karyawan Swasta" || lo.occupation == "PNS/BUMN")).map
      (fun lo => lo.count)).sum
  let most := pyMax (fun x => x.avg_frequency) default (loyalty_by_occupation d)
  { high_loyalty_count := high.count
    high_loyalty_percentage := high.percentage
    loyal_workers_count := loyal_workers
    loyal_workers_percentage :=
      roundQ 1 ((loyal_workers : ℚ) / (d.total_passengers : ℚ) * 100)
    most_loyal_occupation := most.occupation
    most_loyal_occupation_avg_freq := most.avg_frequency }

def get_segmentasi_loyaltas (date : Option String) (now : String) (d : LoyDraws) :
    SegmentasiLoyaltasResponse :=
  { date := target_date date now
    total_passengers := d.total_passengers
    loyalty_segments := loyalty_segments d
    loyalty_by_occupation := loyalty_by_occupation d
    summary := loy_summary d }

def occ_freq_lo : ℕ → ℚ
  | 0 => 8.0
  | 1 => 8.5
  | 2 => 5.0
  | 3 => 6.0
  | _ => 2.0

def occ_freq_hi : ℕ → ℚ
  | 0 => 10.0
  | 1 => 10.5
  | 2 => 7.0
  | 3 => 8.0
  | _ => 4.0

/-- Ranges of the random draws in `get_segmentasi_loyaltas`. -/
def LoyDraws.Valid (d : LoyDraws) : Prop :=
  3500 ≤ d.total_passengers ∧ d.total_passengers ≤ 5000 ∧
  (1200 ≤ d.high_base ∧ d.high_base ≤ 1800) ∧
  (1000 ≤ d.medium_base ∧ d.medium_base ≤ 1500) ∧
  (800 ≤ d.low_base ∧ d.low_base ≤ 1200) ∧
  (-(0.15 : ℚ) ≤ d.high_jitter ∧ d.high_jitter ≤ 0.15) ∧
  (-(0.15 : ℚ) ≤ d.medium_jitter ∧ d.medium_jitter ≤ 0.15) ∧
  (-(0.2 : ℚ) ≤ d.low_jitter ∧ d.low_jitter ≤ 0.2) ∧
  (∀ i, i < 5 → occ_freq_lo i ≤ d.occ_freq i ∧ d.occ_freq i ≤ occ_freq_hi i ∧
    -(0.5 : ℚ) ≤ d.occ_freq_jitter i ∧ d.occ_freq_jitter i ≤ 0.5 ∧
    occ_base_lo i ≤ d.occ_base i ∧ d.occ_base i ≤ occ_base_hi i ∧
    -(0.1 : ℚ) ≤ d.occ_count_jitter i ∧ d.occ_count_jitter i ≤ 0.1)

/-! ### Behavior Correlation (get_behavior_correlation) -/

structure AgeLoyaltyCorrelationData where
  age : ℤ
  avg_loyalty_frequency : ℚ
  count : ℤ
deriving DecidableEq

structure HourGenderData where
  hour : ℕ
  pria_count : ℤ
  wanita_count : ℤ
  pria_percentage : ℚ
  wanita_percentage : ℚ
deriving DecidableEq

structure OccupationZonePreferenceData where
  occupation : String
  north_count : ℤ
  west_count : ℤ
  preference : String
deriving DecidableEq

structure BehSummary where
  age_loyalty_insight : String
  young_avg_loyalty : ℚ
  senior_avg_loyalty : ℚ
  dominant_gender_morning : String
  dominant_gender_evening : String
  strong_zone_preference_count : ℕ
deriving DecidableEq

structure BehaviorCorrelationResponse where
  date : String
  age_loyalty_correlation : List AgeLoyaltyCorrelationData
  hour_gender_distribution : List HourGenderData
  occupation_zone_preference : List OccupationZonePreferenceData
  summary : BehSummary
deriving DecidableEq

instance : Inhabited AgeLoyaltyCorrelationData :=
  ⟨{ age := 0, avg_loyalty_frequency := 0, count := 0 }⟩

instance : Inhabited HourGenderData :=
  ⟨{ hour := 0, pria_count := 0, wanita_count := 0, pria_percentage := 0,
     wanita_percentage := 0 }⟩

instance : Inhabited OccupationZonePreferenceData :=
  ⟨{ occupation := "", north_count := 0, west_count := 0, preference := "" }⟩

/-- All random draws of one `get_behavior_correlation` execution: per age
group the `randint(400, 800)` base, its 0.2 jitter and the ±1.0 frequency
perturbation; per hour slot `i` (hour `6+i`) the `randint(50, 600)` base,
the ±0.05 band draw added to the time-of-day male fraction, and the 0.15
total jitter; per occupation the `randint(200, 1000)` base and its 0.2
jitter. -/
structure BehDraws where
  age_count_base : ℕ → ℤ
  age_count_jitter : ℕ → ℚ
  age_freq_jitter : ℕ → ℚ
  hg_base : ℕ → ℤ
  hg_pct_jitter : ℕ → ℚ
  hg_total_jitter : ℕ → ℚ
  zone_base : ℕ → ℤ
  zone_jitter : ℕ → ℚ

/-- The fixed `(age, base_freq)` table of 6.1. -/
def age_groups : List (ℤ × ℚ) := [(22, 6.5), (28, 7.2), (35, 8.5), (45, 9.0), (55, 7.0)]

def mkAgeLoyalty (d : BehDraws) (i : ℕ) : AgeLoyaltyCorrelationData :=
  { age := (age_groups.getD i (0, 0)).1
    avg_loyalty_frequency := roundQ 1 ((age_groups.getD i (0, 0)).2 + d.age_freq_jitter i)
    count := generate_daily_data (d.age_count_base i) (d.age_count_jitter i) }

def age_loyalty_correlation (d : BehDraws) : List AgeLoyaltyCorrelationData :=
  [mkAgeLoyalty d 0, mkAgeLoyalty d 1, mkAgeLoyalty d 2, mkAgeLoyalty d 3, mkAgeLoyalty d 4]

/-- The hour-dependent male fraction of 6.2, with the ±0.05 band draw. -/
def pria_pct (d : BehDraws) (i : ℕ) : ℚ :=
  if 6 ≤ 6 + i ∧ 6 + i ≤ 11 then 0.55 + d.hg_pct_jitter i
  else if 16 ≤ 6 + i ∧ 6 + i ≤ 19 then 0.45 + d.hg_pct_jitter i
  else 0.50 + d.hg_pct_jitter i

/-- The jittered hourly total of 6.2 for slot `i` (hour `6+i`). -/
def hourTotal (d : BehDraws) (i : ℕ) : ℤ :=
  generate_daily_data (d.hg_base i) (d.hg_total_jitter i)

def mkHourGender (d : BehDraws) (i : ℕ) : HourGenderData :=
  let total : ℤ := hourTotal d i
  let pria : ℤ := truncInt ((total : ℚ) * pria_pct d i)
  { hour := 6 + i
    pria_count := pria
    wanita_count := total - pria
    pria_percentage := roundQ 1 ((pria : ℚ) / (total : ℚ) * 100)
    wanita_percentage := roundQ 1 (((total - pria : ℤ) : ℚ) / (total : ℚ) * 100) }

/-- The 17 hourly gender records for `range(6, 23)`; slot `i` holds hour `6+i`. -/
def hour_gender_distribution (d : BehDraws) : List HourGenderData :=
  (List.range 17).map (fun i => mkHourGender d i)

/-- The fixed `(occupation, north_ratio, west_ratio)` table of 6.3. -/
def occupation_zone_base : List (String × ℚ × ℚ) :=
  [("Karyawan Swasta", 0.52, 0.48), ("PNS/BUMN", 0.60, 0.40),
   ("Pelajar/Mahasiswa", 0.48, 0.52), ("Wiraswasta", 0.50, 0.50),
   ("Wisatawan", 0.35, 0.65)]

/-- The jittered per-occupation total of 6.3. -/
def zoneTotal (d : BehDraws) (i : ℕ) : ℤ :=
  generate_daily_data (d.zone_base i) (d.zone_jitter i)

def mkZonePref (d : BehDraws) (i : ℕ) : OccupationZonePreferenceData :=
  let entry := occupation_zone_base.getD i ("", 0, 0)
  let total : ℤ := zoneTotal d i
  let north : ℤ := truncInt ((total : ℚ) * entry.2.1)
  { occupation := entry.1
    north_count := north
    west_count := total - north
    preference :=
      if entry.2.1 > 0.55 then "North"
      else if entry.2.2 > 0.55 then "West"
      else "Neutral" }

def occupation_zone_preference (d : BehDraws) : List OccupationZonePreferenceData :=
  [mkZonePref d 0, mkZonePref d 1, mkZonePref d 2, mkZonePref d 3, mkZonePref d 4]

/-- Count-weighted mean loyalty of the two youngest buckets
(`age_loyalty_correlation[:2]`), with the `if count > 0 else 0` guard. -/
def young_avg (d : BehDraws) : ℚ :=
  let l := (age_loyalty_correlation d).take 2
  let num := (l.map (fun item => item.avg_loyalty_frequency * (item.count : ℚ))).sum
  let den := (l.map (fun item => item.count)).sum
  if 0 < den then num / (den : ℚ) else 0

/-- Count-weighted mean loyalty of `age_loyalty_correlation[3:]`, with the
`if count > 0 else 0` guard. -/
def senior_avg (d : BehDraws) : ℚ :=
  let l := (age_loyalty_correlation d).drop 3
  let num := (l.map (fun item => item.avg_loyalty_frequency * (item.count : ℚ))).sum
  let den := (l.map (fun item => item.count)).sum
  if 0 < den then num / (den : ℚ) else 0

def beh_summary (d : BehDraws) : BehSummary :=
  { age_loyalty_insight := if senior_avg d > young_avg d then "Positif" else "Negatif/Netral"
    young_avg_loyalty := roundQ 1 (young_avg d)
    senior_avg_loyalty := roundQ 1 (senior_avg d)
    dominant_gender_morning :=
      if ((hour_gender_distribution d).getD 1 default).pria_percentage > 50 then "Pria"
      else "Wanita"
    dominant_gender_evening :=
      if ((hour_gender_distribution d).getD 14 default).pria_percentage > 50 then "Pria"
      else "Wanita"
    strong_zone_preference_count :=
      ((occupation_zone_preference d).filter (fun item => item.preference != "Neutral")).length }

def get_behavior_correlation (date : Option String) (now : String) (d : BehDraws) :
    BehaviorCorrelationResponse :=
  { date := target_date date now
    age_loyalty_correlation := age_loyalty_correlation d
    hour_gender_distribution := hour_gender_distribution d
    occupation_zone_preference := occupation_zone_preference d
    summary := beh_summary d }

/-- Ranges of the random draws in `get_behavior_correlation`. -/
def BehDraws.Valid (d : BehDraws) : Prop :=
  (∀ i, i < 5 → 400 ≤ d.age_count_base i ∧ d.age_count_base i ≤ 800 ∧
    -(0.2 : ℚ) ≤ d.age_count_jitter i ∧ d.age_count_jitter i ≤ 0.2 ∧
    -(1 : ℚ) ≤ d.age_freq_jitter i ∧ d.age_freq_jitter i ≤ 1) ∧
  (∀ i, i < 17 → 50 ≤ d.hg_base i ∧ d.hg_base i ≤ 600 ∧
    -(0.05 : ℚ) ≤ d.hg_pct_jitter i ∧ d.hg_pct_jitter i ≤ 0.05 ∧
    -(0.15 : ℚ) ≤ d.hg_total_jitter i ∧ d.hg_total_jitter i ≤ 0.15) ∧
  (∀ i, i < 5 → 200 ≤ d.zone_base i ∧ d.zone_base i ≤ 1000 ∧
    -(0.2 : ℚ) ≤ d.zone_jitter i ∧ d.zone_jitter i ≤ 0.2)

/-! ### Helper lemmas -/

lemma truncInt_of_nonneg (q : ℚ) (h : 0 ≤ q) : truncInt q = ⌊q⌋ := if_pos h

lemma one_le_truncInt (q : ℚ) (h : 1 ≤ q) : 1 ≤ truncInt q := by
  rw [truncInt_of_nonneg q (le_trans zero_le_one h)]
  exact_mod_cast Int.le_floor.mpr (by exact_mod_cast h)

lemma truncInt_mono {a b : ℚ} (ha : 0 ≤ a) (hab : a ≤ b) : truncInt a ≤ truncInt b := by
  rw [truncInt_of_nonneg a ha, truncInt_of_nonneg b (le_trans ha hab)]
  exact Int.floor_mono hab

/-- A jittered draw stays positive whenever the lower base bound survives the
worst-case downward jitter: if `lo ≤ base`, `-v ≤ u` and `lo * (1 - v) ≥ 1`,
then `int(base * (1 + u)) ≥ 1 > 0`. -/
lemma generate_daily_data_pos (base lo : ℤ) (u v : ℚ)
    (hlo : 0 ≤ lo) (hbase : lo ≤ base) (hu : -v ≤ u) (hv : v ≤ 1)
    (h1 : 1 ≤ (lo : ℚ) * (1 - v)) : 0 < generate_daily_data base u := by
  have hbq : (lo : ℚ) ≤ (base : ℚ) := by exact_mod_cast hbase
  have hloq : (0 : ℚ) ≤ (lo : ℚ) := by exact_mod_cast hlo
  have hmul : (lo : ℚ) * (1 - v) ≤ (base : ℚ) * (1 + u) := by nlinarith
  have hge1 : (1 : ℚ) ≤ (base : ℚ) * (1 + u) := le_trans h1 hmul
  have h2 := one_le_truncInt ((base : ℚ) * (1 + u)) hge1
  unfold generate_daily_data
  omega

/-- The filtered North sum in `traffic_by_zone` is the sum of the four North
gate counts. -/
lemma north_count_eq (d : OpsDraws) :
    north_count d = gateCnt d 0 + gateCnt d 1 + gateCnt d 2 + gateCnt d 3 := by
  simp [north_count, gate_utilization, mkGate, List.filter]
  ring

/-- The filtered West sum in `traffic_by_zone` is the sum of the four West
gate counts. -/
lemma west_count_eq (d : OpsDraws) :
    west_count d = gateCnt d 4 + gateCnt d 5 + gateCnt d 6 + gateCnt d 7 := by
  simp [west_count, gate_utilization, mkGate, List.filter]
  ring

lemma total_loyalty_eq_sum (d : LoyDraws) :
    ((loyalty_segments d).map (fun ls => ls.count)).sum = total_loyalty d := by
  simp [loyalty_segments, total_loyalty]
  ring

/-! ### Concrete draw records used by witnesses and counterexamples -/

/-- A concrete valid execution of `get_operational_efficiency`: total 5000,
all jitters zero, every gate base 500, every balance split exactly 0.45. -/
def opsW : OpsDraws where
  total_transactions := 5000
  hour_base := fun i =>
    if (7 ≤ 6 + i ∧ 6 + i ≤ 9) ∨ (16 ≤ 6 + i ∧ 6 + i ≤ 19) then 500 else 100
  hour_jitter := fun _ => 0
  gate_base := fun _ => 500
  gate_jitter := fun _ => 0
  balance_split := fun _ => 0.45

/-- A concrete valid execution of `get_demografi`: total 4000, every base at
its lower bound, all jitters zero. -/
def demW : DemogDraws where
  total_passengers := 4000
  age_base := fun i => age_base_lo i
  age_jitter := fun _ => 0
  occ_base := fun i => occ_base_lo i
  occ_jitter := fun _ => 0
  pria_jitter := 0
  station_base := fun i => station_base_lo i
  station_jitter := fun _ => 0

/-- A concrete valid execution of `get_segmentasi_perjalanan`. -/
def tripW : TripDraws where
  total_transactions := 5000
  station_base := fun i => station_base_lo i
  station_jitter := fun _ => 0
  in_jitter := 0
  time_base := fun i => time_base_lo i
  time_jitter := fun _ => 0

/-- A concrete valid execution of `get_segmentasi_loyaltas` whose three tier
counts come out as 1500, 1200 and 900 (the spec's worked scenario). -/
def loyW : LoyDraws where
  total_passengers := 4000
  high_base := 1500
  medium_base := 1200
  low_base := 900
  high_jitter := 0
  medium_jitter := 0
  low_jitter := 0
  occ_freq := fun i => occ_freq_lo i
  occ_freq_jitter := fun _ => 0
  occ_base := fun i => occ_base_lo i
  occ_count_jitter := fun _ => 0

/-- A concrete valid execution of `get_behavior_correlation`. -/
def behW : BehDraws where
  age_count_base := fun _ => 500
  age_count_jitter := fun _ => 0
  age_freq_jitter := fun _ => 0
  hg_base := fun _ => 100
  hg_pct_jitter := fun _ => 0
  hg_total_jitter := fun _ => 0
  zone_base := fun _ => 500
  zone_jitter := fun _ => 0

lemma opsW_valid : OpsDraws.Valid opsW := by
  refine ⟨by norm_num [opsW], by norm_num [opsW], ?_, ?_, ?_⟩
  · intro i hi
    interval_cases i <;> norm_num [opsW]
  · intro i hi
    interval_cases i <;> norm_num [opsW]
  · intro i hi
    interval_cases i <;> norm_num [opsW]

lemma demW_valid : DemogDraws.Valid demW := by
  refine ⟨by norm_num [demW], by norm_num [demW], ?_, ?_, by norm_num [demW], ?_⟩
  · intro i hi
    interval_cases i <;> norm_num [demW, age_base_lo, age_base_hi]
  · intro i hi
    interval_cases i <;> norm_num [demW, occ_base_lo, occ_base_hi]
  · intro i hi
    interval_cases i <;> norm_num [demW, station_base_lo, station_base_hi]

lemma tripW_valid : TripDraws.Valid tripW := by
  refine ⟨by norm_num [tripW], by norm_num [tripW], ?_, by norm_num [tripW], ?_⟩
  · intro i hi
    interval_cases i <;> norm_num [tripW, station_base_lo, station_base_hi]
  · intro i hi
    interval_cases i <;> norm_num [tripW, time_base_lo, time_base_hi, time_variance]

lemma loyW_valid : LoyDraws.Valid loyW := by
  refine ⟨by norm_num [loyW], by norm_num [loyW], by norm_num [loyW], by norm_num [loyW],
    by norm_num [loyW], by norm_num [loyW], by norm_num [loyW], by norm_num [loyW], ?_⟩
  intro i hi
  interval_cases i <;> norm_num [loyW, occ_freq_lo, occ_freq_hi, occ_base_lo, occ_base_hi]

lemma behW_valid : BehDraws.Valid behW := by
  refine ⟨?_, ?_, ?_⟩
  · intro i hi
    interval_cases i <;> norm_num [behW]
  · intro i hi
    interval_cases i <;> norm_num [behW]
  · intro i hi
    interval_cases i <;> norm_num [behW]

/-- Every gate count is strictly positive under valid draws: the smallest
possible value is `int(400 * 0.8) = 320`. -/
lemma gateCnt_pos (d : OpsDraws) (h : d.Valid) : ∀ i, i < 8 → 0 < gateCnt d i := by
  obtain ⟨-, -, -, hg, -⟩ := h
  intro i hi
  have hgi := hg i hi
  by_cases h4 : i < 4
  · rw [if_pos h4] at hgi
    exact generate_daily_data_pos _ 450 _ 0.2 (by norm_num) hgi.1.1 hgi.2.1
      (by norm_num) (by norm_num)
  · rw [if_neg h4] at hgi
    exact generate_daily_data_pos _ 400 _ 0.2 (by norm_num) hgi.1.1 hgi.2.1
      (by norm_num) (by norm_num)

lemma north_count_pos (d : OpsDraws) (h : d.Valid) : 0 < north_count d := by
  have h0 := gateCnt_pos d h 0 (by omega)
  have h1 := gateCnt_pos d h 1 (by omega)
  have h2 := gateCnt_pos d h 2 (by omega)
  have h3 := gateCnt_pos d h 3 (by omega)
  rw [north_count_eq]
  omega

lemma west_count_pos (d : OpsDraws) (h : d.Valid) : 0 < west_count d := by
  have h4 := gateCnt_pos d h 4 (by omega)
  have h5 := gateCnt_pos d h 5 (by omega)
  have h6 := gateCnt_pos d h 6 (by omega)
  have h7 := gateCnt_pos d h 7 (by omega)
  rw [west_count_eq]
  omega

/-- Sandwich for a truncated share of a nonnegative count split by a factor
drawn from `[0.45, 0.55]`. -/
lemma truncInt_mul_bounds (z : ℤ) (u : ℚ) (hz : 0 ≤ z) (h1 : 0.45 ≤ u) (h2 : u ≤ 0.55) :
    truncInt ((z : ℚ) * 0.45) ≤ truncInt ((z : ℚ) * u) ∧
    truncInt ((z : ℚ) * u) ≤ truncInt ((z : ℚ) * 0.55) := by
  have hzq : (0 : ℚ) ≤ (z : ℚ) := by exact_mod_cast hz
  constructor
  · exact truncInt_mono (by nlinarith) (by nlinarith)
  · exact truncInt_mono (by nlinarith) (by nlinarith)

/-- Evaluation rule for `age_midpoint` on a label containing a dash. -/
lemma age_midpoint_dash (s : String) (a b : ℕ)
    (hc : s.data.contains '-' = true)
    (h0 : natOfChars ((splitOnChar '-' s.data).getD 0 []) = a)
    (h1 : natOfChars ((splitOnChar '-' s.data).getD 1 []) = b) :
    age_midpoint s = ((a : ℚ) + (b : ℚ)) / 2 := by
  unfold age_midpoint
  rw [if_pos hc]
  simp only [h0, h1]

/-- The five label midpoints average to exactly 39.9 before rounding. -/
lemma avg_age_eq : avg_age = 39.9 := by
  have m1 : age_midpoint "18-24" = (((18 : ℕ) : ℚ) + ((24 : ℕ) : ℚ)) / 2 :=
    age_midpoint_dash _ 18 24 rfl rfl rfl
  have m2 : age_midpoint "25-34" = (((25 : ℕ) : ℚ) + ((34 : ℕ) : ℚ)) / 2 :=
    age_midpoint_dash _ 25 34 rfl rfl rfl
  have m3 : age_midpoint "35-44" = (((35 : ℕ) : ℚ) + ((44 : ℕ) : ℚ)) / 2 :=
    age_midpoint_dash _ 35 44 rfl rfl rfl
  have m4 : age_midpoint "45-54" = (((45 : ℕ) : ℚ) + ((54 : ℕ) : ℚ)) / 2 :=
    age_midpoint_dash _ 45 54 rfl rfl rfl
  have m5 : age_midpoint "55+" = 60 := by
    unfold age_midpoint
    rw [if_neg (by decide)]
  norm_num [avg_age, age_labels, m1, m2, m3, m4, m5]

/-! ### Claim theorems -/

/-- C1 (counterexample): in a reachable Operational Efficiency report (all
jitters zero, every gate base 500, every balance split drawn as 0.45) the
North zone's IN and OUT counts are each `int(2000 * 0.45) = 900`, so
`IN.count + OUT.count = 1800 ≠ 2000 = zone.count`: the code draws the two
direction counts independently instead of taking OUT as the complement. -/
theorem C1_counterexample :
    OpsDraws.Valid opsW ∧
    ((get_operational_efficiency none "2026-01-01" opsW).balance_direction.map
        (fun b => (b.direction, b.count)) =
      [("IN", 900), ("OUT", 900), ("IN", 900), ("OUT", 900)]) ∧
    ((get_operational_efficiency none "2026-01-01" opsW).traffic_by_zone.map
        (fun z => z.count) = [2000, 2000]) ∧
    ¬ (((get_operational_efficiency none "2026-01-01" opsW).balance_direction.getD 0
          default).count +
        ((get_operational_efficiency none "2026-01-01" opsW).balance_direction.getD 1
          default).count =
        ((get_operational_efficiency none "2026-01-01" opsW).traffic_by_zone.getD 0
          default).count) := by
  refine ⟨opsW_valid, ?_, ?_, ?_⟩ <;>
    norm_num [get_operational_efficiency, balance_direction, mkBalance, traffic_by_zone,
      north_count, west_count, gate_utilization, mkGate, gateCnt, generate_daily_data,
      truncInt, opsW, List.filter,
      show (("West" == "North") = false) from rfl, show (("North" == "North") = true) from rfl,
      show (("West" == "West") = true) from rfl, show (("North" == "West") = false) from rfl]

/-- C1 (amended): each of the two balance_direction counts of a zone is an
independent `int(zone_count * u)` with `u ∈ [0.45, 0.55]`, so each lies
between `int(0.45 * zone_count)` and `int(0.55 * zone_count)`; their sum is
not forced to equal the zone count. -/
theorem C1_amended (date : Option String) (now : String) (d : OpsDraws) (h : d.Valid) :
    ∀ j, j < 4 →
      truncInt ((((get_operational_efficiency date now d).traffic_by_zone.getD (j / 2)
            default).count : ℚ) * 0.45) ≤
        ((get_operational_efficiency date now d).balance_direction.getD j default).count ∧
      ((get_operational_efficiency date now d).balance_direction.getD j default).count ≤
        truncInt ((((get_operational_efficiency date now d).traffic_by_zone.getD (j / 2)
            default).count : ℚ) * 0.55) := by
  have hN := north_count_pos d h
  have hW := west_count_pos d h
  obtain ⟨-, -, -, -, hs⟩ := h
  intro j hj
  interval_cases j
  · exact truncInt_mul_bounds (north_count d) (d.balance_split 0) hN.le
      (hs 0 (by omega)).1 (hs 0 (by omega)).2
  · exact truncInt_mul_bounds (north_count d) (d.balance_split 1) hN.le
      (hs 1 (by omega)).1 (hs 1 (by omega)).2
  · exact truncInt_mul_bounds (west_count d) (d.balance_split 2) hW.le
      (hs 2 (by omega)).1 (hs 2 (by omega)).2
  · exact truncInt_mul_bounds (west_count d) (d.balance_split 3) hW.le
      (hs 3 (by omega)).1 (hs 3 (by omega)).2

/-- C1 (witness for the amended theorem), at the concrete valid draws
`opsW` and index 0. -/
theorem C1_amended_witness :
    truncInt ((((get_operational_efficiency none "2026-01-01" opsW).traffic_by_zone.getD 0
          default).count : ℚ) * 0.45) ≤
      ((get_operational_efficiency none "2026-01-01" opsW).balance_direction.getD 0
        default).count ∧
    ((get_operational_efficiency none "2026-01-01" opsW).balance_direction.getD 0
      default).count ≤
      truncInt ((((get_operational_efficiency none "2026-01-01" opsW).traffic_by_zone.getD 0
          default).count : ℚ) * 0.55) :=
  C1_amended none "2026-01-01" opsW opsW_valid 0 (by norm_num)

/-- C2 (counterexample): the caller-supplied date string `""` (an empty,
hence malformed, date) is falsy in Python, so `date or get_date()` replaces
it with the current date: the returned date field is not the supplied
string. -/
theorem C2_counterexample :
    DemogDraws.Valid demW ∧
    (get_demografi (some "") "2026-01-01" demW).date = "2026-01-01" ∧
    (get_demografi (some "") "2026-01-01" demW).date ≠ "" := by
  refine ⟨demW_valid, rfl, by decide⟩

/-- C2 (amended): for every NON-EMPTY caller-supplied date string, however
malformed, every generator endpoint returns a report whose date field is
exactly that string, and the date has no effect on any other field of the
report; the empty string alone is treated as an absent date and replaced by
the current date. -/
theorem C2_amended (s now : String) (h : s ≠ "")
    (od : OpsDraws) (dd : DemogDraws) (td : TripDraws) (ld : LoyDraws) (bd : BehDraws) :
    ((get_operational_efficiency (some s) now od).date = s ∧
     (get_demografi (some s) now dd).date = s ∧
     (get_segmentasi_perjalanan (some s) now td).date = s ∧
     (get_segmentasi_loyaltas (some s) now ld).date = s ∧
     (get_behavior_correlation (some s) now bd).date = s) ∧
    (∀ d1 d2 : Option String, ∀ n1 n2 : String,
      { get_operational_efficiency d1 n1 od with date := "" } =
        { get_operational_efficiency d2 n2 od with date := "" } ∧
      { get_demografi d1 n1 dd with date := "" } =
        { get_demografi d2 n2 dd with date := "" } ∧
      { get_segmentasi_perjalanan d1 n1 td with date := "" } =
        { get_segmentasi_perjalanan d2 n2 td with date := "" } ∧
      { get_segmentasi_loyaltas d1 n1 ld with date := "" } =
        { get_segmentasi_loyaltas d2 n2 ld with date := "" } ∧
      { get_behavior_correlation d1 n1 bd with date := "" } =
        { get_behavior_correlation d2 n2 bd with date := "" }) := by
  have hd : target_date (some s) now = s := by simp [target_date, h]
  exact ⟨⟨hd, hd, hd, hd, hd⟩, fun d1 d2 n1 n2 => ⟨rfl, rfl, rfl, rfl, rfl⟩⟩

/-- C2 (witness for the amended theorem), at the malformed non-empty date
string "2099-13-99" and concrete valid draws. -/
theorem C2_amended_witness :
    ((get_operational_efficiency (some "2099-13-99") "2026-01-01" opsW).date = "2099-13-99" ∧
     (get_demografi (some "2099-13-99") "2026-01-01" demW).date = "2099-13-99" ∧
     (get_segmentasi_perjalanan (some "2099-13-99") "2026-01-01" tripW).date = "2099-13-99" ∧
     (get_segmentasi_loyaltas (some "2099-13-99") "2026-01-01" loyW).date = "2099-13-99" ∧
     (get_behavior_correlation (some "2099-13-99") "2026-01-01" behW).date = "2099-13-99") ∧
    (∀ d1 d2 : Option String, ∀ n1 n2 : String,
      { get_operational_efficiency d1 n1 opsW with date := "" } =
        { get_operational_efficiency d2 n2 opsW with date := "" } ∧
      { get_demografi d1 n1 demW with date := "" } =
        { get_demografi d2 n2 demW with date := "" } ∧
      { get_segmentasi_perjalanan d1 n1 tripW with date := "" } =
        { get_segmentasi_perjalanan d2 n2 tripW with date := "" } ∧
      { get_segmentasi_loyaltas d1 n1 loyW with date := "" } =
        { get_segmentasi_loyaltas d2 n2 loyW with date := "" } ∧
      { get_behavior_correlation d1 n1 behW with date := "" } =
        { get_behavior_correlation d2 n2 behW with date := "" }) :=
  C2_amended "2099-13-99" "2026-01-01" (by decide) opsW demW tripW loyW behW

/-- C3: in every Behavior Correlation report each of the five zone-preference
records satisfies `north_count + west_count = total` exactly (the west count
is the complement of the north count of the record's jittered total); the
preference labels are exactly [Neutral, North, Neutral, Neutral, West]
(one North for PNS/BUMN, one West for Wisatawan, three Neutral); and for
every record the label is North iff the configured north-ratio exceeds 0.55
and West iff the configured west-ratio exceeds 0.55. -/
theorem C3_zone_preference (date : Option String) (now : String) (d : BehDraws)
    (h : d.Valid) :
    ((get_behavior_correlation date now d).occupation_zone_preference.map
        (fun r => r.north_count + r.west_count) =
      [zoneTotal d 0, zoneTotal d 1, zoneTotal d 2, zoneTotal d 3, zoneTotal d 4]) ∧
    ((get_behavior_correlation date now d).occupation_zone_preference.map
        (fun r => r.preference) = ["Neutral", "North", "Neutral", "Neutral", "West"]) ∧
    (∀ i, i < 5 →
      ((((get_behavior_correlation date now d).occupation_zone_preference.getD i
            default).preference = "North") ↔
        (occupation_zone_base.getD i ("", 0, 0)).2.1 > 0.55) ∧
      ((((get_behavior_correlation date now d).occupation_zone_preference.getD i
            default).preference = "West") ↔
        (occupation_zone_base.getD i ("", 0, 0)).2.2 > 0.55)) := by
  refine ⟨?_, ?_, ?_⟩
  · dsimp only [get_behavior_correlation]
    simp only [occupation_zone_preference, mkZonePref, zoneTotal, List.map_cons,
      List.map_nil, List.cons.injEq, and_true]
    omega
  · dsimp only [get_behavior_correlation]
    norm_num [occupation_zone_preference, mkZonePref, occupation_zone_base]
  · intro i hi
    interval_cases i <;>
      constructor <;>
        (norm_num [get_behavior_correlation, occupation_zone_preference, mkZonePref,
          occupation_zone_base]; (try decide))

/-- C3 (witness), at the concrete valid draws `behW`. -/
theorem C3_zone_preference_witness :
    ((get_behavior_correlation none "2026-01-01" behW).occupation_zone_preference.map
        (fun r => r.north_count + r.west_count) =
      [zoneTotal behW 0, zoneTotal behW 1, zoneTotal behW 2, zoneTotal behW 3,
       zoneTotal behW 4]) ∧
    ((get_behavior_correlation none "2026-01-01" behW).occupation_zone_preference.map
        (fun r => r.preference) = ["Neutral", "North", "Neutral", "Neutral", "West"]) ∧
    (∀ i, i < 5 →
      ((((get_behavior_correlation none "2026-01-01" behW).occupation_zone_preference.getD i
            default).preference = "North") ↔
        (occupation_zone_base.getD i ("", 0, 0)).2.1 > 0.55) ∧
      ((((get_behavior_correlation none "2026-01-01" behW).occupation_zone_preference.getD i
            default).preference = "West") ↔
        (occupation_zone_base.getD i ("", 0, 0)).2.2 > 0.55)) :=
  C3_zone_preference none "2026-01-01" behW behW_valid

/-- C4: in every Behavior Correlation report the summary's dominant morning
gender is read from array position 1 of the hourly sequence (which holds
hour 7) and the dominant evening gender from array position 14 (which holds
hour 20), each labelled Pria exactly when that record's male percentage
exceeds 50 and Wanita otherwise. -/
theorem C4_dominant_gender_fixed_positions (date : Option String) (now : String)
    (d : BehDraws) :
    (((get_behavior_correlation date now d).hour_gender_distribution.getD 1 default).hour
      = 7) ∧
    (((get_behavior_correlation date now d).hour_gender_distribution.getD 14 default).hour
      = 20) ∧
    ((get_behavior_correlation date now d).summary.dominant_gender_morning =
      (if ((get_behavior_correlation date now d).hour_gender_distribution.getD 1
            default).pria_percentage > 50 then "Pria" else "Wanita")) ∧
    ((get_behavior_correlation date now d).summary.dominant_gender_evening =
      (if ((get_behavior_correlation date now d).hour_gender_distribution.getD 14
            default).pria_percentage > 50 then "Pria" else "Wanita")) :=
  ⟨rfl, rfl, rfl, rfl⟩

/-- C5: in every Demographics report the summary's average_age is the
rounded unweighted mean of the five age-label midpoints
((18+24)/2, (25+34)/2, (35+44)/2, (45+54)/2 and 60 for "55+"), hence the
constant 39.9 whatever the random draws and bucket counts. -/
theorem C5_average_age_constant (date : Option String) (now : String) (d : DemogDraws) :
    (get_demografi date now d).summary.average_age =
      roundQ 1 ((((18 + 24 : ℚ) / 2) + ((25 + 34) / 2) + ((35 + 44) / 2) + ((45 + 54) / 2)
        + 60) / 5) ∧
    (get_demografi date now d).summary.average_age = 39.9 := by
  have ha : avg_age = 39.9 := avg_age_eq
  constructor
  · show roundQ 1 avg_age = _
    rw [ha]
    norm_num [roundQ]
  · show roundQ 1 avg_age = _
    rw [ha]
    norm_num [roundQ]

/-- C6: under the fixed base ranges and jitter variances, every denominator
used in a division by the five generators is strictly positive: the
operational and trip totals, the demographic and loyalty totals, both zone
counts, the gate-record count (8), the sum of the three loyalty tier counts,
and every hourly gender total. -/
theorem C6_no_zero_denominators (od : OpsDraws) (dd : DemogDraws) (td : TripDraws)
    (ld : LoyDraws) (bd : BehDraws)
    (ho : od.Valid) (hdm : dd.Valid) (ht : td.Valid) (hl : ld.Valid) (hb : bd.Valid) :
    0 < od.total_transactions ∧
    0 < dd.total_passengers ∧
    0 < td.total_transactions ∧
    0 < ld.total_passengers ∧
    0 < north_count od ∧
    0 < west_count od ∧
    (gate_utilization od).length = 8 ∧
    0 < total_loyalty ld ∧
    (∀ i, i < 17 → 0 < hourTotal bd i) := by
  obtain ⟨l1, l2, ⟨h3a, h3b⟩, ⟨h4a, h4b⟩, ⟨h5a, h5b⟩, ⟨h6a, h6b⟩, ⟨h7a, h7b⟩,
    ⟨h8a, h8b⟩, l9⟩ := hl
  have hH := generate_daily_data_pos ld.high_base 1200 ld.high_jitter 0.15
    (by norm_num) h3a h6a (by norm_num) (by norm_num)
  have hM := generate_daily_data_pos ld.medium_base 1000 ld.medium_jitter 0.15
    (by norm_num) h4a h7a (by norm_num) (by norm_num)
  have hL := generate_daily_data_pos ld.low_base 800 ld.low_jitter 0.2
    (by norm_num) h5a h8a (by norm_num) (by norm_num)
  refine ⟨by linarith [ho.1], by linarith [hdm.1], by linarith [ht.1], by linarith [l1],
    north_count_pos od ho, west_count_pos od ho, rfl, ?_, ?_⟩
  · show 0 < high_count ld + medium_count ld + low_count ld
    simp only [high_count, medium_count, low_count]
    omega
  · intro i hi
    have hgi := hb.2.1 i hi
    exact generate_daily_data_pos (bd.hg_base i) 50 (bd.hg_total_jitter i) 0.15
      (by norm_num) hgi.1 hgi.2.2.2.2.1 (by norm_num) (by norm_num)

/-- C6 (witness), at the concrete valid draws of all five generators. -/
theorem C6_no_zero_denominators_witness :
    0 < opsW.total_transactions ∧
    0 < demW.total_passengers ∧
    0 < tripW.total_transactions ∧
    0 < loyW.total_passengers ∧
    0 < north_count opsW ∧
    0 < west_count opsW ∧
    (gate_utilization opsW).length = 8 ∧
    0 < total_loyalty loyW ∧
    (∀ i, i < 17 → 0 < hourTotal behW i) :=
  C6_no_zero_denominators opsW demW tripW loyW behW
    opsW_valid demW_valid tripW_valid loyW_valid behW_valid

/-- C7: in every Operational Efficiency report, each of the 8 gate records
carries `utilization_rate = round(count / total_transactions * 100, 2)`,
with the report's own randomized total as denominator. -/
theorem C7_gate_utilization_rate (date : Option String) (now : String) (d : OpsDraws)
    (i : ℕ) (hi : i < 8) :
    ((get_operational_efficiency date now d).gate_utilization.getD i default).utilization_rate
      = roundQ 2
        ((((get_operational_efficiency date now d).gate_utilization.getD i default).count : ℚ)
          / ((get_operational_efficiency date now d).total_transactions : ℚ) * 100) := by
  interval_cases i <;> rfl

/-- C7 (witness), at the concrete valid draws `opsW` and gate index 0. -/
theorem C7_gate_utilization_rate_witness :
    ((get_operational_efficiency none "2026-01-01" opsW).gate_utilization.getD 0
        default).utilization_rate
      = roundQ 2
        ((((get_operational_efficiency none "2026-01-01" opsW).gate_utilization.getD 0
            default).count : ℚ)
          / ((get_operational_efficiency none "2026-01-01" opsW).total_transactions : ℚ)
          * 100) :=
  C7_gate_utilization_rate none "2026-01-01" opsW 0 (by norm_num)

/-- C8: in every Loyalty Segmentation report, each of the three tier
percentages is `round(count / T * 100, 1)` where `T` is the sum of the three
tier counts themselves (not total_passengers). -/
theorem C8_loyalty_percentages (date : Option String) (now : String) (d : LoyDraws)
    (i : ℕ) (hi : i < 3) :
    ((get_segmentasi_loyaltas date now d).loyalty_segments.getD i default).percentage =
      roundQ 1
        ((((get_segmentasi_loyaltas date now d).loyalty_segments.getD i default).count : ℚ)
          / ((((get_segmentasi_loyaltas date now d).loyalty_segments.map
              (fun ls => ls.count)).sum : ℤ) : ℚ) * 100) := by
  dsimp only [get_segmentasi_loyaltas]
  rw [total_loyalty_eq_sum]
  interval_cases i <;> rfl

/-- C8 (witness): at the concrete valid draws `loyW` the tier counts come
out as the spec's scenario [1500, 1200, 900], whose sum 3600 (and not the
independently drawn total_passengers 4000) is the percentages' denominator,
giving [41.7, 33.3, 25.0]; the theorem is applied at tier index 0. -/
theorem C8_loyalty_percentages_witness :
    ((get_segmentasi_loyaltas none "2026-01-01" loyW).loyalty_segments.map
        (fun ls => ls.count) = [1500, 1200, 900]) ∧
    ((get_segmentasi_loyaltas none "2026-01-01" loyW).total_passengers = 4000) ∧
    ((get_segmentasi_loyaltas none "2026-01-01" loyW).loyalty_segments.map
        (fun ls => ls.percentage) = [41.7, 33.3, 25.0]) ∧
    ((get_segmentasi_loyaltas none "2026-01-01" loyW).loyalty_segments.getD 0
        default).percentage =
      roundQ 1
        ((((get_segmentasi_loyaltas none "2026-01-01" loyW).loyalty_segments.getD 0
            default).count : ℚ)
          / ((((get_segmentasi_loyaltas none "2026-01-01" loyW).loyalty_segments.map
              (fun ls => ls.count)).sum : ℤ) : ℚ) * 100) := by
  refine ⟨?_, rfl, ?_, C8_loyalty_percentages none "2026-01-01" loyW 0 (by norm_num)⟩ <;>
    norm_num [get_segmentasi_loyaltas, loyalty_segments, high_count, medium_count,
      low_count, total_loyalty, generate_daily_data, truncInt, roundQ, loyW]

/-- C9: in every Demographics report the female count is the exact
complement of the male count (`male.count + female.count = total_passengers`),
and in every Trip Segmentation report the OUT count is the exact complement
of the IN count (`IN.count + OUT.count = total_transactions`). -/
theorem C9_exact_complements (date : Option String) (now : String)
    (dd : DemogDraws) (td : TripDraws) :
    ((get_demografi date now dd).gender_distribution.map (fun g => g.gender) =
      ["Pria", "Wanita"]) ∧
    (((get_demografi date now dd).gender_distribution.getD 0 default).count +
      ((get_demografi date now dd).gender_distribution.getD 1 default).count =
      (get_demografi date now dd).total_passengers) ∧
    ((get_segmentasi_perjalanan date now td).direction_distribution.map
        (fun x => x.direction) = ["IN", "OUT"]) ∧
    (((get_segmentasi_perjalanan date now td).direction_distribution.getD 0 default).count +
      ((get_segmentasi_perjalanan date now td).direction_distribution.getD 1 default).count =
      (get_segmentasi_perjalanan date now td).total_transactions) := by
  refine ⟨rfl, ?_, rfl, ?_⟩
  · show pria_count dd + (dd.total_passengers - pria_count dd) = dd.total_passengers
    omega
  · show in_count td + (td.total_transactions - in_count td) = td.total_transactions
    omega

/-- C10: in every Operational Efficiency report the first 4 gate records are
the North gates and the last 4 the West gates, and the North (resp. West)
zone record's count equals the sum of its 4 gate records' counts. -/
theorem C10_zone_counts_sum_gates (date : Option String) (now : String) (d : OpsDraws) :
    ((get_operational_efficiency date now d).gate_utilization.map (fun g => g.zone) =
      ["North", "North", "North", "North", "West", "West", "West", "West"]) ∧
    (((get_operational_efficiency date now d).traffic_by_zone.getD 0 default).zone =
      "TAP-NORTH") ∧
    (((get_operational_efficiency date now d).traffic_by_zone.getD 0 default).count =
      ((((get_operational_efficiency date now d).gate_utilization.take 4).map
        (fun g => g.count)).sum)) ∧
    (((get_operational_efficiency date now d).traffic_by_zone.getD 1 default).zone =
      "TAP-WEST") ∧
    (((get_operational_efficiency date now d).traffic_by_zone.getD 1 default).count =
      ((((get_operational_efficiency date now d).gate_utilization.drop 4).map
        (fun g => g.count)).sum)) := by
  refine ⟨rfl, rfl, ?_, rfl, ?_⟩
  · show north_count d = _
    rw [north_count_eq]
    simp [get_operational_efficiency, gate_utilization, mkGate, gateCnt]
    ring
  · show west_count d = _
    rw [west_count_eq]
    simp [get_operational_efficiency, gate_utilization, mkGate, gateCnt]
    ring

end KCI
